import Mathlib

set_option maxRecDepth 4000

/-!
Shallow embedding of the SAT solver core of the repository (DPLL solver with
a classical linked-list engine in `src/cnf.cpp`, a compact-array engine
`FastCNF`/`FastDPLL` in the same file, and an optimized watched-literal engine
`OptimizedDPLL` in `src/optimize_cnf.cpp`), together with theorems settling
the specification claims.

Modelling conventions:
* C++ `std::vector` fields become Lean `List`s; indexed reads use `List.getD`
  with the same defaults the C++ code would observe, writes use `List.set`.
* The trail / undo stack is stored most-recent-first (`push_back` = cons,
  `back` = head, `pop_back` = tail).
* C++ `int` decision levels become `Int` (backtrack targets can be `-1`).
* C++ `double` activity scores become exact unnormalized fractions `DFrac`
  (numerator/denominator over `Int`, denominators always positive, order by
  cross multiplication); every comparison carried out on the runs used in
  the theorems below distinguishes values far apart (or exactly equal),
  where IEEE doubles and exact rationals order identically.
* Loops whose C++ termination argument is "each productive iteration assigns
  a previously unassigned variable" receive a fuel parameter instantiated to
  a bound derived from the variable count; theorems about concrete inputs
  evaluate the definitions, so fuel adequacy is visible in the results.
-/

/-- Exact fraction model of C++ `double` values. All operations performed by
the embedded code keep the denominator positive, so the cross-multiplication
order test `DFrac.lt` computes the exact rational order. -/
structure DFrac where
  num : Int
  den : Int
deriving DecidableEq, Repr

/-- Fraction with denominator 1. -/
def DFrac.ofInt (n : Int) : DFrac := ⟨n, 1⟩

/-- Exact fraction addition (no normalization). -/
def DFrac.add (a b : DFrac) : DFrac := ⟨a.num * b.den + b.num * a.den, a.den * b.den⟩

/-- Exact fraction multiplication (no normalization). -/
def DFrac.mul (a b : DFrac) : DFrac := ⟨a.num * b.num, a.den * b.den⟩

/-- Exact fraction division (used only with positive divisors). -/
def DFrac.div (a b : DFrac) : DFrac := ⟨a.num * b.den, a.den * b.num⟩

/-- Exact order on fractions with positive denominators. -/
def DFrac.lt (a b : DFrac) : Bool := a.num * b.den < b.num * a.den

/-- Variable assignment states, from `enum VarState` in `cnf.h`. -/
inductive VarState where
  | VAR_UNASSIGNED
  | VAR_FALSE
  | VAR_TRUE
deriving DecidableEq, Repr

open VarState

/-- Trail entries, from `struct TrailItem` in `cnf.h`. -/
structure TrailItem where
  var : Nat
  old_value : VarState
  decision_level : Int
  is_decision : Bool
deriving DecidableEq, Repr

/-- State of the compact-array solver, from `class FastCNF` in `cnf.h`. -/
structure FastCNF where
  clauses : List (List Int)
  assignment : List VarState
  trail : List TrailItem
  clause_satisfied : List Bool
  clause_watch_count : List Nat
  num_vars : Nat
  decision_level : Int
deriving DecidableEq, Repr

/-- Truth of a literal under an assignment, as computed inline by
`FastCNF::updateClauseStatus` (`literal_true`). Callers in the C++ code only
use it on assigned variables. -/
def litTrue (assignment : List VarState) (l : Int) : Bool :=
  let v := assignment.getD l.natAbs VAR_UNASSIGNED
  if l > 0 then v = VAR_TRUE else v = VAR_FALSE

/-- Per-clause scan of `FastCNF::updateClauseStatus`: returns the `satisfied`
flag and the running `unassigned_count`; the scan breaks at the first true
literal exactly as the C++ loop does. -/
def clauseStatusScan (assignment : List VarState) : List Int → Bool × Nat
  | [] => (false, 0)
  | l :: ls =>
    if assignment.getD l.natAbs VAR_UNASSIGNED = VAR_UNASSIGNED then
      let r := clauseStatusScan assignment ls
      (r.1, r.2 + 1)
    else if litTrue assignment l then
      (true, 0)
    else
      clauseStatusScan assignment ls

/-- Loop body of `FastCNF::updateClauseStatus`: clauses whose satisfied flag
is already set are skipped (their flag and watch count are left untouched). -/
def updateStatusGo (assignment : List VarState) :
    List (List Int) → List Bool → List Nat → List Bool × List Nat
  | c :: cs, f :: fs, w :: ws =>
    let r := updateStatusGo assignment cs fs ws
    if f then (f :: r.1, w :: r.2)
    else
      let sc := clauseStatusScan assignment c
      (sc.1 :: r.1, (if sc.1 then 0 else sc.2) :: r.2)
  | _, _, _ => ([], [])

/-- Embeds `FastCNF::updateClauseStatus`. -/
def FastCNF.updateClauseStatus (s : FastCNF) : FastCNF :=
  let r := updateStatusGo s.assignment s.clauses s.clause_satisfied s.clause_watch_count
  { s with clause_satisfied := r.1, clause_watch_count := r.2 }

/-- Embeds `FastCNF::hasEmptyClause`: some clause is unsatisfied with cached
watch count zero. -/
def FastCNF.hasEmptyClause (s : FastCNF) : Bool :=
  (s.clause_satisfied.zip s.clause_watch_count).any (fun p => !p.1 && p.2 == 0)

/-- Embeds `FastCNF::allClausesSatisfied`: every cached satisfied flag is set. -/
def FastCNF.allClausesSatisfied (s : FastCNF) : Bool :=
  s.clause_satisfied.all (fun f => f)

/-- Embeds `FastCNF::assign`: pushes a trail item recording the old value and
the current (pre-increment) decision level, overwrites the assignment, and
increments the decision level on decisions. There is no precondition check. -/
def FastCNF.assign (s : FastCNF) (var : Nat) (value : VarState) (is_decision : Bool) : FastCNF :=
  let item : TrailItem :=
    { var := var
      old_value := s.assignment.getD var VAR_UNASSIGNED
      decision_level := s.decision_level
      is_decision := is_decision }
  { s with
    trail := item :: s.trail
    assignment := s.assignment.set var value
    decision_level := if is_decision then s.decision_level + 1 else s.decision_level }

/-- Pop loop of `FastCNF::backtrack`: undoes trail items whose recorded level
exceeds the target. -/
def backtrackGo (level : Int) :
    List TrailItem → List VarState → List TrailItem × List VarState
  | [], assignment => ([], assignment)
  | item :: rest, assignment =>
    if item.decision_level > level then
      backtrackGo level rest (assignment.set item.var item.old_value)
    else
      (item :: rest, assignment)

/-- Embeds `FastCNF::backtrack`. Satisfied flags and watch counts are not
touched, exactly as in the C++ code. -/
def FastCNF.backtrack (s : FastCNF) (level : Int) : FastCNF :=
  let r := backtrackGo level s.trail s.assignment
  { s with trail := r.1, assignment := r.2, decision_level := level }

/-- Search for the unassigned literal of a unit clause, as in the inner loop
of `FastCNF::unitPropagate` (`unit_literal`, 0 when none is found). -/
def findUnassignedLit (assignment : List VarState) : List Int → Int
  | [] => 0
  | l :: ls =>
    if assignment.getD l.natAbs VAR_UNASSIGNED = VAR_UNASSIGNED then l
    else findUnassignedLit assignment ls

/-- Single pass over all clauses inside the `do` loop of
`FastCNF::unitPropagate`. Returns (state, propagated, conflict); the pass
aborts with conflict = true when `hasEmptyClause` fires right after an
assignment, mirroring the early `return false`. Watch counts are not
refreshed inside the pass, exactly as in the C++ loop. -/
def unitScanGo : FastCNF → Bool → List Nat → FastCNF × Bool × Bool
  | s, propagated, [] => (s, propagated, false)
  | s, propagated, i :: rest =>
    if s.clause_satisfied.getD i false || s.clause_watch_count.getD i 0 != 1 then
      unitScanGo s propagated rest
    else
      let lit := findUnassignedLit s.assignment (s.clauses.getD i [])
      if lit = 0 then unitScanGo s propagated rest
      else
        let s' := s.assign lit.natAbs (if lit > 0 then VAR_TRUE else VAR_FALSE) false
        if s'.hasEmptyClause then (s', true, true)
        else unitScanGo s' true rest

/-- Outer `do … while (propagated)` loop of `FastCNF::unitPropagate`. Each
iteration that continues the loop has assigned at least one previously
unassigned variable, so `num_vars + 1` rounds of fuel always suffice. -/
def unitPropagateGo : Nat → FastCNF → FastCNF × Bool
  | 0, s => (s, true)
  | fuel + 1, s =>
    let s1 := s.updateClauseStatus
    let r := unitScanGo s1 false (List.range s1.clauses.length)
    if r.2.2 then (r.1, false)
    else if r.2.1 then unitPropagateGo fuel r.1
    else (r.1, true)

/-- Embeds `FastCNF::unitPropagate`, returning the mutated state and the
boolean result (false = conflict). -/
def FastCNF.unitPropagate (s : FastCNF) : FastCNF × Bool :=
  unitPropagateGo (s.num_vars + 1) s

/-- Literal loop of `FastCNF::chooseBranchVariable`: adds the clause weight to
the activity of each unassigned variable of the clause. -/
def addClauseActivity (assignment : List VarState) (w : DFrac) :
    List Int → List DFrac → List DFrac
  | [], act => act
  | l :: ls, act =>
    let var := l.natAbs
    let act' :=
      if assignment.getD var VAR_UNASSIGNED = VAR_UNASSIGNED then
        act.set var ((act.getD var (DFrac.ofInt 0)).add w)
      else act
    addClauseActivity assignment w ls act'

/-- Clause loop of `FastCNF::chooseBranchVariable` (satisfied clauses are
skipped; the clause weight is `1 / (length + 1)`). -/
def activityGo (assignment : List VarState) :
    List (List Int) → List Bool → List DFrac → List DFrac
  | c :: cs, f :: fs, act =>
    if f then activityGo assignment cs fs act
    else activityGo assignment cs fs
      (addClauseActivity assignment ⟨1, (c.length : Int) + 1⟩ c act)
  | _, _, act => act

/-- Selection loop of `FastCNF::chooseBranchVariable`: scans variables in
increasing order, keeping the first strict maximum above the initial best
activity 0. -/
def chooseBestGo (assignment : List VarState) (act : List DFrac) :
    List Nat → Nat → DFrac → Nat
  | [], best, _ => best
  | v :: vs, best, bestAct =>
    if assignment.getD v VAR_UNASSIGNED = VAR_UNASSIGNED ∧
        DFrac.lt bestAct (act.getD v (DFrac.ofInt 0)) = true then
      chooseBestGo assignment act vs v (act.getD v (DFrac.ofInt 0))
    else chooseBestGo assignment act vs best bestAct

/-- Embeds `FastCNF::chooseBranchVariable` (returns 0 when no unassigned
variable has positive activity). -/
def FastCNF.chooseBranchVariable (s : FastCNF) : Nat :=
  let act := activityGo s.assignment s.clauses s.clause_satisfied
    (List.replicate (s.num_vars + 1) (DFrac.ofInt 0))
  chooseBestGo s.assignment act ((List.range s.num_vars).map (· + 1)) 0 (DFrac.ofInt 0)

/-- Embeds `FastDPLL` from `cnf.cpp`, threading the mutated solver state.
The fuel bounds the recursion depth; every recursive call strictly decreases
the number of unassigned variables, so `num_vars + 1` suffices at top level. -/
def FastDPLL : Nat → FastCNF → Bool × FastCNF
  | 0, s => (false, s)
  | fuel + 1, s =>
    let up := s.unitPropagate
    if !up.2 then (false, up.1)
    else if up.1.allClausesSatisfied then (true, up.1)
    else
      let branch_var := up.1.chooseBranchVariable
      if branch_var = 0 then (up.1.allClausesSatisfied, up.1)
      else
        let s2 := up.1.assign branch_var VAR_TRUE true
        let r1 := FastDPLL fuel s2
        if r1.1 then (true, r1.2)
        else
          let s4 := r1.2.backtrack (r1.2.decision_level - 1)
          let s5 := s4.assign branch_var VAR_FALSE true
          let r2 := FastDPLL fuel s5
          if r2.1 then (true, r2.2)
          else (false, r2.2.backtrack (r2.2.decision_level - 1))

/-- Embeds `FastCNF::fromSATList` composed with the `FastCNF(boolCount)`
constructor, as performed by `DPLL_DualCore_Fast`: empty clauses are dropped,
state arrays are zero-initialized, and `updateClauseStatus` runs once. -/
def FastCNF.init (n : Nat) (input : List (List Int)) : FastCNF :=
  let cls := input.filter (fun c => !c.isEmpty)
  FastCNF.updateClauseStatus
    { clauses := cls
      assignment := List.replicate (n + 1) VAR_UNASSIGNED
      trail := []
      clause_satisfied := List.replicate cls.length false
      clause_watch_count := List.replicate cls.length 0
      num_vars := n
      decision_level := 0 }

/-- SAT/UNSAT result of `DPLL_DualCore_Fast` from `cnf.cpp`. Each worker
thread runs `FastDPLL` on its own deep copy after asserting one polarity of
the shared branch variable; `result_ready` ends up true iff at least one
worker found SAT (the race between the workers only decides which worker's
assignment is published, not the returned bit, which is what this definition
captures). The `cnf == nullptr` guard is the `input = []` case. -/
def DPLL_DualCore_Fast_sat (n : Nat) (input : List (List Int)) : Nat :=
  if input.isEmpty then 0
  else
    let s0 := FastCNF.init n input
    let up := s0.unitPropagate
    if !up.2 then 0
    else if up.1.allClausesSatisfied then 1
    else
      let branch_var := up.1.chooseBranchVariable
      if branch_var = 0 then (if up.1.allClausesSatisfied then 1 else 0)
      else
        let w1 := FastDPLL (n + 1) (up.1.assign branch_var VAR_TRUE true)
        let w2 := FastDPLL (n + 1) (up.1.assign branch_var VAR_FALSE true)
        if w1.1 || w2.1 then 1 else 0

/-- Literal-removal step of `DPLL`'s propagation loop in `cnf.cpp`: scanning a
clause left to right, the first literal equal to `re` deletes the whole clause
(`removeClause`, result `none`), the first literal equal to `-re` deletes just
that literal (`removeNode`) and stops the scan; otherwise the clause is kept. -/
def procClause (re : Int) : List Int → Option (List Int)
  | [] => some []
  | l :: ls =>
    if l = re then none
    else if l = -re then some ls
    else (procClause re ls).map (l :: ·)

/-- Clause loop of `DPLL`'s propagation pass: applies `procClause` to every
clause of the formula. -/
def propagateLit (re : Int) : List (List Int) → List (List Int)
  | [] => []
  | c :: cs =>
    match procClause re c with
    | none => propagateLit re cs
    | some c' => c' :: propagateLit re cs

/-- Embeds `unitClause`/`isUnitClause`: the literal of the first clause that
has exactly one literal, if any. -/
def findUnit : List (List Int) → Option Int
  | [] => none
  | [l] :: _ => some l
  | _ :: cs => findUnit cs

/-- Embeds `emptyClause`: the formula contains a clause with no literals. -/
def hasEmptyClauseList (cnf : List (List Int)) : Bool :=
  cnf.any (fun c => c.isEmpty)

/-- Number of occurrences of literal `lit` in the formula, as accumulated in
`DPLL`'s `count` array. -/
def countLit (cnf : List (List Int)) (lit : Int) : Nat :=
  (cnf.map (fun c => c.count lit)).sum

/-- Maximum-count scan of `DPLL`: first strict maximum of `f` over the
variables `1..n`, 0 when every count is zero. -/
def argmaxCountGo (f : Nat → Nat) : List Nat → Nat → Nat → Nat
  | [], best, _ => best
  | v :: vs, best, bestCnt =>
    if f v > bestCnt then argmaxCountGo f vs v (f v)
    else argmaxCountGo f vs best bestCnt

/-- Branch-variable choice of `DPLL`: the positive literal with the most
occurrences; if no positive literal occurs, the negative literal with the
most occurrences; 0 when the formula has no literals at all. -/
def chooseMaxWord (n : Nat) (cnf : List (List Int)) : Int :=
  let vars := (List.range n).map (· + 1)
  let posBest := argmaxCountGo (fun v => countLit cnf (Int.ofNat v)) vars 0 0
  let negBest := argmaxCountGo (fun v => countLit cnf (-(Int.ofNat v))) vars 0 0
  if posBest ≠ 0 then Int.ofNat posBest else -(Int.ofNat negBest)

/-- Embeds the classical linked-list `DPLL` of `cnf.cpp` (the sequential
solver of the menu), threading the `value[]` array as a function. The unit
cascade (`goto FIND_UNIT`) and the two branch recursions each consume one
unit of fuel; every cascade step removes at least one clause and every branch
assigns a fresh variable, so any fuel beyond the total literal count plus the
variable count of the input is enough. The value writes `value[re] = 1` /
`value[-re] = 0` are reproduced verbatim (including the `re = 0` corner where
`value[0]` is written). -/
def DPLL : Nat → Nat → List (List Int) → (Nat → Nat) → Nat × (Nat → Nat)
  | 0, _, _, value => (0, value)
  | fuel + 1, n, cnf, value =>
    match findUnit cnf with
    | some re =>
      let value' : Nat → Nat :=
        if re > 0 then fun v => if v = re.natAbs then 1 else value v
        else fun v => if v = (-re).natAbs then 0 else value v
      let cnf' := propagateLit re cnf
      if cnf'.isEmpty then (1, value')
      else if hasEmptyClauseList cnf' then (0, value')
      else DPLL fuel n cnf' value'
    | none =>
      let mw := chooseMaxWord n cnf
      let r1 := DPLL fuel n ([mw] :: cnf) value
      if r1.1 = 1 then (1, r1.2)
      else DPLL fuel n ([-mw] :: cnf) r1.2

/-- Undo-stack entries, from `struct AssignmentChange` in `optimize_cnf.h`. -/
structure AssignmentChange where
  var : Nat
  old_value : Bool
  was_assigned : Bool
deriving DecidableEq, Repr

/-- Combined state of the optimized solver: the `OptimizedCNF` formula object
together with the mutable members of `OptimizedDPLL` (`optimize_cnf.h`).
`pos_count`/`neg_count` are omitted as fields because every C++ use first
overwrites them via `calculateLiteralCounts` (modelled as a function below);
`var_to_clauses` and `order_heap` are built but never read by the solver. -/
structure OptState where
  clauses : List (List Int)
  assignment : List Bool
  is_assigned : List Bool
  clause_satisfied : List Bool
  num_vars : Nat
  undo_stack : List AssignmentChange
  watches : List (List Nat)
  clause_watched : List (Int × Int)
  activity : List DFrac
  activity_inc : DFrac
  decision_count : Nat
deriving DecidableEq, Repr

/-- Embeds `OptimizedDPLL::literalToIndex`. -/
def literalToIndex (n : Nat) (l : Int) : Nat :=
  if l > 0 then l.toNat else n + (-l).toNat

/-- Truth of a literal under the `vector<bool>` assignment, as computed inline
(`lit_true`) throughout `optimize_cnf.cpp`. -/
def optLitTrue (assignment : List Bool) (l : Int) : Bool :=
  if l > 0 then assignment.getD l.natAbs false else !(assignment.getD l.natAbs false)

/-- Clause scan shared by `OptimizedDPLL::updateClauseStatus` and
`OptimizedCNF::allClausesSatisfied`: some literal is assigned and true. -/
def optClauseHasTrueLit (assignment is_assigned : List Bool) (c : List Int) : Bool :=
  c.any (fun l => is_assigned.getD l.natAbs false && optLitTrue assignment l)

/-- Embeds `OptimizedDPLL::updateClauseStatus` (flags are only ever raised). -/
def OptState.updateClauseStatus (s : OptState) : OptState :=
  let flags := (s.clauses.zip s.clause_satisfied).map
    (fun p => p.2 || optClauseHasTrueLit s.assignment s.is_assigned p.1)
  { s with clause_satisfied := flags }

/-- Embeds `OptimizedCNF::allClausesSatisfied`: every clause is flagged or has
an assigned true literal (both `return false` paths of the C++ code collapse
to the same condition). -/
def OptState.allClausesSatisfied (s : OptState) : Bool :=
  (s.clauses.zip s.clause_satisfied).all
    (fun p => p.2 || optClauseHasTrueLit s.assignment s.is_assigned p.1)

/-- Flag-only satisfaction check used by the inline `all_satisfied` loops of
`OptimizedDPLL::dpllRecursive`. -/
def OptState.allFlagsSet (s : OptState) : Bool :=
  s.clause_satisfied.all (fun f => f)

/-- Literal loop of `OptimizedDPLL::calculateLiteralCounts`. -/
def calcCountsLits (num_vars : Nat) (is_assigned : List Bool) :
    List Int → List Nat × List Nat → List Nat × List Nat
  | [], pn => pn
  | l :: ls, pn =>
    let var := l.natAbs
    let pn' :=
      if var ≤ num_vars ∧ is_assigned.getD var false = false then
        if l > 0 then (pn.1.set var (pn.1.getD var 0 + 1), pn.2)
        else (pn.1, pn.2.set var (pn.2.getD var 0 + 1))
      else pn
    calcCountsLits num_vars is_assigned ls pn'

/-- Clause loop of `OptimizedDPLL::calculateLiteralCounts` (satisfied clauses
are skipped). -/
def calcCountsGo (num_vars : Nat) (is_assigned : List Bool) :
    List (List Int) → List Bool → List Nat × List Nat → List Nat × List Nat
  | c :: cs, f :: fs, pn =>
    if f then calcCountsGo num_vars is_assigned cs fs pn
    else calcCountsGo num_vars is_assigned cs fs (calcCountsLits num_vars is_assigned c pn)
  | _, _, pn => pn

/-- Embeds `OptimizedDPLL::calculateLiteralCounts`, producing the
`pos_count`/`neg_count` arrays. -/
def OptState.calculateLiteralCounts (s : OptState) : List Nat × List Nat :=
  calcCountsGo s.num_vars s.is_assigned s.clauses s.clause_satisfied
    (List.replicate (s.num_vars + 1) 0, List.replicate (s.num_vars + 1) 0)

/-- Embeds `OptimizedDPLL::pushAssignment`: records the previous state on the
undo stack and overwrites the assignment unconditionally. -/
def OptState.pushAssignment (s : OptState) (var : Nat) (value : Bool) : OptState :=
  let change : AssignmentChange :=
    { var := var
      old_value := s.assignment.getD var false
      was_assigned := s.is_assigned.getD var false }
  { s with
    undo_stack := change :: s.undo_stack
    is_assigned := s.is_assigned.set var true
    assignment := s.assignment.set var value }

/-- Pop loop of `OptimizedDPLL::backtrack` (`undo_stack.size() > target`). -/
def optBacktrackGo (target : Nat) :
    List AssignmentChange → List Bool → List Bool →
    List AssignmentChange × List Bool × List Bool
  | [], assignment, is_assigned => ([], assignment, is_assigned)
  | ch :: rest, assignment, is_assigned =>
    if rest.length + 1 > target then
      optBacktrackGo target rest (assignment.set ch.var ch.old_value)
        (is_assigned.set ch.var ch.was_assigned)
    else (ch :: rest, assignment, is_assigned)

/-- Embeds `OptimizedDPLL::backtrack`: restores the undo stack down to the
target size, then conservatively clears all satisfied flags and re-derives
them with `updateClauseStatus`. -/
def OptState.backtrack (s : OptState) (target : Nat) : OptState :=
  let r := optBacktrackGo target s.undo_stack s.assignment s.is_assigned
  OptState.updateClauseStatus
    { s with
      undo_stack := r.1
      assignment := r.2.1
      is_assigned := r.2.2
      clause_satisfied := List.replicate s.clause_satisfied.length false }

/-- Overflow threshold 1e100 of the VSIDS code, exact. -/
def activityLimit : DFrac := ⟨10 ^ (100 : Nat), 1⟩

/-- Rescale factor 1e-100 of the VSIDS code, exact. -/
def rescaleFactor : DFrac := ⟨1, 10 ^ (100 : Nat)⟩

/-- Decay factor 0.95 from the `OptimizedDPLL` constructor. -/
def decay_factor : DFrac := ⟨19, 20⟩

/-- Rescale loop (`for i in 1..n: activity[i] *= 1e-100`); index 0 is left
untouched just as in the C++ loop. -/
def rescaleActivity (act : List DFrac) : List DFrac :=
  act.enum.map (fun p => if p.1 = 0 then p.2 else p.2.mul rescaleFactor)

/-- Embeds `OptimizedDPLL::bumpActivity`. -/
def OptState.bumpActivity (s : OptState) (var : Nat) : OptState :=
  let a := (s.activity.getD var (DFrac.ofInt 0)).add s.activity_inc
  let s1 := { s with activity := s.activity.set var a }
  if DFrac.lt activityLimit a then
    { s1 with
      activity := rescaleActivity s1.activity
      activity_inc := s1.activity_inc.mul rescaleFactor }
  else s1

/-- Embeds `OptimizedDPLL::decayActivity`. -/
def OptState.decayActivity (s : OptState) : OptState :=
  let inc := s.activity_inc.div decay_factor
  if DFrac.lt activityLimit inc then
    { s with activity := rescaleActivity s.activity, activity_inc := inc.mul rescaleFactor }
  else { s with activity_inc := inc }

/-- Embeds `OptimizedDPLL::handleConflict`: bump every variable of the
conflict clause, then decay. -/
def OptState.handleConflict (s : OptState) (conflict_clause : List Int) : OptState :=
  (conflict_clause.foldl (fun t l => t.bumpActivity l.natAbs) s).decayActivity

/-- Selection loop of `OptimizedDPLL::selectVariableVSIDS` (`max_activity`
starts at -1, so the first unassigned variable always wins initially). -/
def vsidsGo (is_assigned : List Bool) (activity : List DFrac) :
    List Nat → Nat → DFrac → Nat
  | [], best, _ => best
  | v :: vs, best, maxAct =>
    if is_assigned.getD v false = false ∧
        DFrac.lt maxAct (activity.getD v (DFrac.ofInt 0)) = true then
      vsidsGo is_assigned activity vs v (activity.getD v (DFrac.ofInt 0))
    else vsidsGo is_assigned activity vs best maxAct

/-- Embeds `OptimizedDPLL::selectVariableVSIDS`. -/
def OptState.selectVariableVSIDS (s : OptState) : Nat :=
  vsidsGo s.is_assigned s.activity ((List.range s.num_vars).map (· + 1)) 0 (DFrac.ofInt (-1))

/-- Selection loop of `OptimizedDPLL::selectVariableMOM` with the score
`pos·neg + pos + neg` (`max_mom` starts at -1). -/
def momGo (is_assigned : List Bool) (pos neg : List Nat) :
    List Nat → Nat → Int → Nat
  | [], best, _ => best
  | v :: vs, best, maxMom =>
    if is_assigned.getD v false = false then
      let score : Int :=
        (pos.getD v 0 : Int) * (neg.getD v 0 : Int) + (pos.getD v 0 : Int) + (neg.getD v 0 : Int)
      if score > maxMom then momGo is_assigned pos neg vs v score
      else momGo is_assigned pos neg vs best maxMom
    else momGo is_assigned pos neg vs best maxMom

/-- Embeds `OptimizedDPLL::selectVariableMOM`. -/
def OptState.selectVariableMOM (s : OptState) : Nat :=
  let pn := s.calculateLiteralCounts
  momGo s.is_assigned pn.1 pn.2 ((List.range s.num_vars).map (· + 1)) 0 (-1)

/-- Embeds `OptimizedDPLL::selectVariable`: MOM during the first
`num_vars / 4` decisions, then VSIDS with MOM as fallback. -/
def OptState.selectVariable (s : OptState) : Nat :=
  if s.decision_count < s.num_vars / 4 then
    let m := s.selectVariableMOM
    if m ≠ 0 then m
    else
      let v := s.selectVariableVSIDS
      if v ≠ 0 then v else s.selectVariableMOM
  else
    let v := s.selectVariableVSIDS
    if v ≠ 0 then v else s.selectVariableMOM

/-- Appends a clause index to a watch list (`watches[idx].push_back(i)`). -/
def addWatch (watches : List (List Nat)) (idx : Nat) (ci : Nat) : List (List Nat) :=
  watches.set idx (watches.getD idx [] ++ [ci])

/-- Embeds `OptimizedDPLL::initWatchedLiterals`: clauses of length ≥ 2 watch
their first two literals, unit clauses watch their sole literal (second slot
0), and the clause is registered in the watch list of each watched literal. -/
def initWatchedGo (n : Nat) :
    List (List Int) → Nat → List (List Nat) → List (List Nat) × List (Int × Int)
  | [], _, watches => (watches, [])
  | c :: cs, i, watches =>
    match c with
    | w1 :: w2 :: _ =>
      let watches1 := addWatch (addWatch watches (literalToIndex n w1) i) (literalToIndex n w2) i
      let r := initWatchedGo n cs (i + 1) watches1
      (r.1, (w1, w2) :: r.2)
    | [w1] =>
      let watches1 := addWatch watches (literalToIndex n w1) i
      let r := initWatchedGo n cs (i + 1) watches1
      (r.1, (w1, 0) :: r.2)
    | [] =>
      let r := initWatchedGo n cs (i + 1) watches
      (r.1, (0, 0) :: r.2)

/-- Embeds the `OptimizedDPLL(SATList*)` constructor: `fromSATList` drops
empty clauses, state arrays are zero-initialized, `activity_inc` starts at 1,
and `initWatchedLiterals` runs once. -/
def OptState.init (n : Nat) (input : List (List Int)) : OptState :=
  let cls := input.filter (fun c => !c.isEmpty)
  let w := initWatchedGo n cls 0 (List.replicate (2 * n + 1) [])
  { clauses := cls
    assignment := List.replicate (n + 1) false
    is_assigned := List.replicate (n + 1) false
    clause_satisfied := List.replicate cls.length false
    num_vars := n
    undo_stack := []
    watches := w.1
    clause_watched := w.2
    activity := List.replicate (n + 1) (DFrac.ofInt 0)
    activity_inc := DFrac.ofInt 1
    decision_count := 0 }

/-- Literal scan of `OptimizedDPLL::updateWatch`: skips the old watch and the
other watch; an assigned true literal marks the clause satisfied; an
unassigned literal becomes the new watch (the clause index is removed from
the old literal's watch list and appended to the new one); assigned false
literals are passed over. -/
def updateWatchScan (s : OptState) (ci : Nat) (old_watch other : Int) :
    List Int → OptState × Bool
  | [] => (s, false)
  | l :: ls =>
    if l ≠ old_watch ∧ l ≠ other then
      let var := l.natAbs
      if s.is_assigned.getD var false then
        if optLitTrue s.assignment l then
          ({ s with clause_satisfied := s.clause_satisfied.set ci true }, true)
        else updateWatchScan s ci old_watch other ls
      else
        let pair := s.clause_watched.getD ci (0, 0)
        let newPair := if pair.1 = old_watch then (l, pair.2) else (pair.1, l)
        let oldIdx := literalToIndex s.num_vars old_watch
        let newIdx := literalToIndex s.num_vars l
        let watches1 := s.watches.set oldIdx ((s.watches.getD oldIdx []).filter (· ≠ ci))
        let watches2 := watches1.set newIdx ((watches1.getD newIdx []) ++ [ci])
        ({ s with clause_watched := s.clause_watched.set ci newPair, watches := watches2 }, true)
    else updateWatchScan s ci old_watch other ls

/-- Embeds `OptimizedDPLL::updateWatch`. -/
def OptState.updateWatch (s : OptState) (ci : Nat) (old_watch : Int) : OptState × Bool :=
  let pair := s.clause_watched.getD ci (0, 0)
  let other := if pair.1 = old_watch then pair.2 else pair.1
  updateWatchScan s ci old_watch other (s.clauses.getD ci [])

/-- Loop of `OptimizedDPLL::propagateWatched` over the snapshot copy of the
watch list of the falsified literal; `watched` is read before `updateWatch`
runs, exactly as the C++ reference binding does. The nested recursive
propagation call of the C++ code is abstracted as the parameter `recurse`
(instantiated with `propagateWatched` at one lower fuel below). -/
def pwLoop (recurse : OptState → Nat → Bool → OptState × Bool) :
    OptState → Int → List Nat → OptState × Bool
  | s, _, [] => (s, true)
  | s, false_lit, ci :: rest =>
    if s.clause_satisfied.getD ci false then pwLoop recurse s false_lit rest
    else
      let watched := s.clause_watched.getD ci (0, 0)
      let uw := s.updateWatch ci false_lit
      if uw.2 then pwLoop recurse uw.1 false_lit rest
      else
        let other := if watched.1 = false_lit then watched.2 else watched.1
        if other = 0 then
          (uw.1.handleConflict (uw.1.clauses.getD ci []), false)
        else
          let other_var := other.natAbs
          if uw.1.is_assigned.getD other_var false then
            let other_value := uw.1.assignment.getD other_var false
            if (decide (other > 0) && !other_value) || (!(decide (other > 0)) && other_value) then
              (uw.1.handleConflict (uw.1.clauses.getD ci []), false)
            else
              pwLoop recurse { uw.1 with clause_satisfied := uw.1.clause_satisfied.set ci true }
                false_lit rest
          else
            let required := decide (other > 0)
            let s2 := uw.1.pushAssignment other_var required
            let pr := recurse s2 other_var required
            if !pr.2 then (pr.1, false)
            else pwLoop recurse pr.1 false_lit rest

/-- Embeds `OptimizedDPLL::propagateWatched(var, value)`. The fuel bounds the
depth of the propagation recursion; every nested call is preceded by a
`pushAssignment` of a previously unassigned variable, so `num_vars + 1` is
always enough (the fuel-exhaustion branch mirrors no C++ behaviour and is
unreachable at the fuel used by callers). -/
def propagateWatched : Nat → OptState → Nat → Bool → OptState × Bool
  | 0, s, _, _ => (s, true)
  | f + 1, s, var, value =>
    let false_lit : Int := if value then -(var : Int) else (var : Int)
    pwLoop (fun t v b => propagateWatched f t v b) s false_lit
      (s.watches.getD (literalToIndex s.num_vars false_lit) [])

/-- Embeds `OptimizedDPLL::pushAssignmentWithPropagation`. -/
def OptState.pushAssignmentWithPropagation (s : OptState) (var : Nat) (value : Bool) :
    OptState × Bool :=
  propagateWatched (s.num_vars + 1) (s.pushAssignment var value) var value

/-- Variable loop of `OptimizedDPLL::pureLiteralElimination`; the counts are
computed once at entry and not refreshed after propagations, exactly as in
the C++ code (`cnf.is_assigned` is consulted live). -/
def pleGo (pos neg : List Nat) : List Nat → OptState → OptState × Bool
  | [], s => (s, true)
  | v :: vs, s =>
    if s.is_assigned.getD v false = false then
      if pos.getD v 0 > 0 ∧ neg.getD v 0 = 0 then
        let r := s.pushAssignmentWithPropagation v true
        if !r.2 then (r.1, false) else pleGo pos neg vs r.1
      else if pos.getD v 0 = 0 ∧ neg.getD v 0 > 0 then
        let r := s.pushAssignmentWithPropagation v false
        if !r.2 then (r.1, false) else pleGo pos neg vs r.1
      else pleGo pos neg vs s
    else pleGo pos neg vs s

/-- Embeds `OptimizedDPLL::pureLiteralElimination`. -/
def OptState.pureLiteralElimination (s : OptState) : OptState × Bool :=
  let pn := s.calculateLiteralCounts
  pleGo pn.1 pn.2 ((List.range s.num_vars).map (· + 1)) s

/-- Embeds `OptimizedDPLL::dpllRecursive`, threading the solver state and a
ghost log. The log is pure instrumentation: it records, at each invocation of
`pureLiteralElimination`, the pair (current `undo_stack.size()`, current
`decision_count`); no control flow depends on it. `unitPropagation()` of the
C++ code returns true unconditionally (its comment defers propagation to
`pushAssignmentWithPropagation`), so no call is emitted for it. The fuel
bounds the recursion depth; each recursive call starts with strictly more
assigned variables, so `num_vars + 2` is always enough. -/
def dpllRecursive : Nat → OptState → List (Nat × Nat) → Bool × OptState × List (Nat × Nat)
  | 0, s, log => (false, s, log)
  | fuel + 1, s, log =>
    let s1 := s.updateClauseStatus
    if s1.allFlagsSet then (true, s1, log)
    else
      let log1 := log ++ [(s1.undo_stack.length, s1.decision_count)]
      let ple := s1.pureLiteralElimination
      if !ple.2 then (false, ple.1, log1)
      else
        let s2 := ple.1.updateClauseStatus
        if s2.allFlagsSet then (true, s2, log1)
        else
          let var := s2.selectVariable
          if var = 0 then (s2.allClausesSatisfied, s2, log1)
          else
            let s3 := { s2 with decision_count := s2.decision_count + 1 }
            let level := s3.undo_stack.length
            let b1 := s3.pushAssignmentWithPropagation var true
            if !b1.2 then
              let s4 := b1.1.backtrack level
              let b2 := s4.pushAssignmentWithPropagation var false
              if !b2.2 then (false, b2.1, log1)
              else dpllRecursive fuel b2.1 log1
            else
              let r1 := dpllRecursive fuel b1.1 log1
              if r1.1 then (true, r1.2.1, r1.2.2)
              else
                let s4 := r1.2.1.backtrack level
                let b2 := s4.pushAssignmentWithPropagation var false
                if !b2.2 then (false, b2.1, r1.2.2)
                else dpllRecursive fuel b2.1 r1.2.2

/-- Embeds `OptimizedCNF::getAssignment` (`optimize_cnf.h`): -1 for
unassigned variables (and index 0), otherwise 0/1. -/
def OptState.getAssignment (s : OptState) : List Int :=
  (List.range (s.num_vars + 1)).map (fun i =>
    if i = 0 then -1
    else if s.is_assigned.getD i false then (if s.assignment.getD i false then 1 else 0)
    else -1)

/-- Export loop of `DPLL_Optimized` (`value[i] = (solution[i] == 1) ? 1 : 0`)
and, with `VarState` solutions mapped through `getD`, of
`DPLL_DualCore_Fast`. -/
def exportValue (solution : List Int) (i : Nat) : Nat :=
  if solution.getD i 0 = 1 then 1 else 0

/-- Export loop of `DPLL_DualCore_Fast`
(`value[i] = (global_solution[i] == VAR_TRUE) ? 1 : 0`). -/
def exportValueFast (solution : List VarState) (i : Nat) : Nat :=
  if solution.getD i VAR_UNASSIGNED = VAR_TRUE then 1 else 0

/-- Full run of `DPLL_Optimized`'s solver object: construction followed by
`solve()` (which is just `dpllRecursive()`), with the ghost log. -/
def DPLL_Optimized_run (n : Nat) (input : List (List Int)) :
    Bool × OptState × List (Nat × Nat) :=
  dpllRecursive (n + 2) (OptState.init n input) []

/-- Embeds the `DPLL_Optimized` entry point of `optimize_cnf.cpp`: the
`cnf == nullptr` guard returns 0 on an empty clause list before the solver is
even constructed; otherwise the result is 1 iff `solve()` returned true. -/
def DPLL_Optimized_result (n : Nat) (input : List (List Int)) : Nat :=
  if input.isEmpty then 0
  else if (DPLL_Optimized_run n input).1 then 1 else 0

/-- Ghost log of pure-literal-elimination invocations of a `DPLL_Optimized`
run (empty input never reaches the solver). -/
def DPLL_Optimized_pleLog (n : Nat) (input : List (List Int)) : List (Nat × Nat) :=
  if input.isEmpty then [] else (DPLL_Optimized_run n input).2.2

/-!
Concrete formulas and run states used by the claim theorems, plus a
reference semantics for evaluating a CNF under a total Boolean assignment
(the specification's notion "evaluating each input clause under the returned
assignment yields True").
-/

/-- Truth of a literal under a total Boolean assignment (positive literal =
variable is true), the semantics used by the spec and by `verify.cpp`. -/
def evalLit (a : List Bool) (l : Int) : Bool :=
  if l > 0 then a.getD l.natAbs false else !(a.getD l.natAbs false)

/-- Truth of a clause: at least one literal is true. -/
def evalClause (a : List Bool) (c : List Int) : Bool :=
  c.any (evalLit a)

/-- Truth of a CNF: every clause is true. -/
def evalCNF (a : List Bool) (cnf : List (List Int)) : Bool :=
  cnf.all (evalClause a)

/-- Truth of a clause under a partial `VarState` assignment (unassigned
variables make no literal true). -/
def fastClauseTrue (assignment : List VarState) (c : List Int) : Bool :=
  c.any (litTrue assignment)

/-- Number of assigned variables of a `FastCNF` state (spec side: the count
the trail length is claimed to equal). -/
def FastCNF.assignedCount (s : FastCNF) : Nat :=
  ((List.range (s.num_vars + 1)).filter
    (fun v => s.assignment.getD v VAR_UNASSIGNED ≠ VAR_UNASSIGNED)).length

/-- Missed unit in the spec's sense: the clause has exactly one literal on an
unassigned variable and every literal on an assigned variable is false. -/
def isMissedUnit (assignment : List VarState) (c : List Int) : Prop :=
  (c.filter (fun l => assignment.getD l.natAbs VAR_UNASSIGNED = VAR_UNASSIGNED)).length = 1 ∧
  ∀ l ∈ c, assignment.getD l.natAbs VAR_UNASSIGNED ≠ VAR_UNASSIGNED →
    litTrue assignment l = false

/-- Complete unsatisfiable 2-variable formula
`(x1∨x2)(x1∨¬x2)(¬x1∨x2)(¬x1∨¬x2)`, test scenario 2 of the spec. -/
def F2 : List (List Int) := [[1, 2], [1, -2], [-1, 2], [-1, -2]]

/-- Unsatisfiable 3-variable formula: three tautological clauses `(x1∨¬x1)`
(which steer the parallel branch heuristic to variable 1) together with the
complete unsatisfiable pattern on variables 2 and 3. -/
def F7 : List (List Int) :=
  [[1, -1], [1, -1], [1, -1], [2, 3], [2, -3], [-2, 3], [-2, -3]]

/-- Satisfiable 4-variable formula `(x1∨x2)(¬x1∨¬x2)(x3∨¬x4)(¬x3∨x4)` with no
pure literal at top level, used to drive `OptimizedDPLL` into a decision
subtree. -/
def F6 : List (List Int) := [[1, 2], [-1, -2], [3, -4], [-3, 4]]

/-- Initial `FastCNF` state of the run of `FastDPLL` on `F2`. -/
def F2s0 : FastCNF := FastCNF.init 2 F2

/-- State after the first decision `assign(1, VAR_TRUE, true)` of `FastDPLL`
on `F2` (branch variable 1 is what `chooseBranchVariable` returns there). -/
def F2s1 : FastCNF := F2s0.assign 1 VAR_TRUE true

/-- State after the subsequent `unitPropagate()` (it assigns variable 2 and
reports no conflict even though clause `[-1,-2]` is falsified). -/
def F2s2 : FastCNF := F2s1.unitPropagate.1

/-- State after `backtrack(decision_level - 1)`, i.e. `backtrack(0)`, the
call `FastDPLL` makes when the positive branch fails. -/
def F2s3 : FastCNF := F2s2.backtrack 0

/-- State after the opposite-branch `assign(1, VAR_FALSE, true)` that
`FastDPLL` performs next. -/
def F2s4 : FastCNF := F2s3.assign 1 VAR_FALSE true

/-- Any total Boolean assignment falsifies some clause of `F2`. -/
theorem F2_unsat (a : List Bool) : evalCNF a F2 = false := by
  cases h1 : a[1]?.getD false <;> cases h2 : a[2]?.getD false <;>
    simp [evalCNF, evalClause, evalLit, F2, h1, h2]

/-- Any total Boolean assignment falsifies some clause of `F7`. -/
theorem F7_unsat (a : List Bool) : evalCNF a F7 = false := by
  cases h2 : a[2]?.getD false <;> cases h3 : a[3]?.getD false <;>
    simp [evalCNF, evalClause, evalLit, F7, h2, h3]

/-- C1. Claimed: whenever a solver entry point returns SAT, every input
clause evaluates to True under the returned assignment. Refuted on the code:
`FastDPLL` (entry point of the fast engine, also run by each worker of
`DPLL_DualCore_Fast`) returns SAT on the unsatisfiable formula `F2`; its
returned assignment leaves variable 2 unassigned and sets variable 1 to
False, so the input clause `[1, 2]` does not evaluate to True — indeed no
total assignment satisfies `F2` at all. The root cause is the interplay of
`FastCNF::backtrack` (which never clears satisfied flags and, because
`assign` records the pre-increment level, never pops the decision itself)
with `updateClauseStatus` (which skips flagged clauses). -/
theorem C1_sat_result_falsifies_input_clause :
    (FastDPLL 3 (FastCNF.init 2 F2)).1 = true ∧
    [1, 2] ∈ F2 ∧
    fastClauseTrue (FastDPLL 3 (FastCNF.init 2 F2)).2.assignment [1, 2] = false ∧
    (∀ a : List Bool, evalCNF a F2 = false) :=
  ⟨by decide, by decide, by decide, F2_unsat⟩

/-- C2. Claimed: the parallel solve returns Sat iff the sequential solve
returns Sat on every formula. Refuted on the code: on the unsatisfiable
formula `F7` the parallel entry point `DPLL_DualCore_Fast` reports SAT
(its worker for the True polarity of branch variable 1 reaches a spuriously
all-flagged state, see C1/C4), while the sequential entry point `DPLL`
correctly reports UNSAT. -/
theorem C2_parallel_and_sequential_disagree :
    DPLL_DualCore_Fast_sat 3 F7 = 1 ∧
    (DPLL 50 3 F7 (fun _ => 0)).1 = 0 ∧
    (∀ a : List Bool, evalCNF a F7 = false) :=
  ⟨by decide, by decide, F7_unsat⟩

/-- C3. Claimed: in every state reachable by assign/propagate/backtrack
operations, the trail length equals the number of assigned variables and no
variable occurs in the trail twice. Refuted on the code: `F2s4` is reached by
the exact operation sequence `FastDPLL` performs on `F2` — decision
`assign(1, VAR_TRUE, true)`, `unitPropagate()`, `backtrack(0)`, opposite
branch `assign(1, VAR_FALSE, true)` — and there variable 1 occurs twice in
the trail, whose length is 2 while only one variable is assigned (the
`backtrack` left the decision entry in place, so the second `assign`
duplicated it). -/
theorem C3_trail_invariant_broken_in_search :
    F2s4.trail.map TrailItem.var = [1, 1] ∧
    F2s4.trail.length = 2 ∧
    F2s4.assignedCount = 1 := by
  refine ⟨by decide, by decide, by decide⟩

/-- C4. Claimed: after `backtrack_to(level)`, every satisfied flag set at a
deeper level is False again (cleared, or re-derived before it is next
observed). Refuted on the code for `FastCNF::backtrack`: in the `FastDPLL`
run on `F2`, the flag of clause 0 (`[1, 2]`) is False initially, is raised at
decision level 1 (`F2s2`), survives `backtrack(0)` untouched (`F2s3`), and at
the next observation point — the `unitPropagate`/`allClausesSatisfied` pair
after the opposite-branch assignment — it is still True while clause 0 is not
satisfied by the current assignment, so it was neither cleared nor re-derived
(`updateClauseStatus` skips flagged clauses). -/
theorem C4_backtrack_keeps_stale_satisfied_flag :
    F2s0.clause_satisfied.getD 0 false = false ∧
    F2s2.decision_level = 1 ∧
    F2s2.clause_satisfied.getD 0 false = true ∧
    F2s3.clause_satisfied.getD 0 false = true ∧
    F2s4.unitPropagate.1.clause_satisfied.getD 0 false = true ∧
    F2s4.unitPropagate.1.allClausesSatisfied = true ∧
    fastClauseTrue F2s4.unitPropagate.1.assignment
      (F2s4.unitPropagate.1.clauses.getD 0 []) = false := by
  decide

/-- C5. Claimed: whenever propagation returns Ok, no clause has exactly one
unassigned literal with all of its other literals False. Refuted on the code:
started from the reachable state `F2s4` (see C3), `FastCNF::unitPropagate`
returns Ok, yet clause 0 = `[1, 2]` then has exactly one unassigned literal
(variable 2) while its other literal (variable 1, assigned False) is False —
a missed unit, hidden behind the stale satisfied flag that the propagation
loop skips. -/
theorem C5_propagate_ok_misses_unit :
    F2s4.unitPropagate.2 = true ∧
    F2s4.unitPropagate.1.clauses.getD 0 [] = [1, 2] ∧
    isMissedUnit F2s4.unitPropagate.1.assignment [1, 2] := by
  refine ⟨by decide, by decide, by decide, ?_⟩
  decide

/-- C7. Claimed: on an empty clause set (m = 0), every solver entry point
returns SAT. Refuted on the code: the entry points guard `cnf == nullptr`
(the representation of zero clauses produced by the DIMACS reader) and return
0 = UNSAT before constructing a solver — `DPLL_Optimized`
(`optimize_cnf.cpp`), `DPLL_DualCore_Fast` (`cnf.cpp`), and `DPLL_DualCore`
(`dualcore_cnf.cpp`) all begin with `if (cnf == nullptr) return 0;`. The
empty CNF is vacuously satisfied by every assignment. -/
theorem C7_empty_formula_returns_unsat :
    (∀ n : Nat, DPLL_Optimized_result n [] = 0) ∧
    (∀ n : Nat, DPLL_DualCore_Fast_sat n [] = 0) ∧
    (∀ a : List Bool, evalCNF a [] = true) :=
  ⟨fun _ => rfl, fun _ => rfl, fun _ => rfl⟩

/-- C6, counterexample. Claimed: pure-literal elimination runs only at
decision level 0 and is never invoked inside a decision subtree. Refuted on
the code: in the `DPLL_Optimized` run on `F6`, the ghost log of
`pureLiteralElimination` invocations (pairs of trail depth and decision
count at the moment of the call) is `[(0, 0), (2, 1)]` — the second
invocation happens inside the subtree of the first decision, with two
trail entries in place. -/
theorem C6_counterexample_ple_inside_decision_subtree :
    DPLL_Optimized_pleLog 4 F6 = [(0, 0), (2, 1)] ∧
    (2, 1) ∈ DPLL_Optimized_pleLog 4 F6 := by
  refine ⟨by decide, by decide⟩

/-- Helper: the ghost log of `dpllRecursive` only ever grows. -/
theorem dpllRecursive_log_extends (fuel : Nat) :
    ∀ (s : OptState) (log : List (Nat × Nat)),
      ∃ ext, (dpllRecursive fuel s log).2.2 = log ++ ext := by
  induction fuel with
  | zero =>
    intro s log
    exact ⟨[], by simp [dpllRecursive]⟩
  | succ f ih =>
    intro s log
    have key : ∀ (t : OptState) (log' : List (Nat × Nat)),
        (∃ pre, log' = log ++ pre) →
        ∃ ext, (dpllRecursive f t log').2.2 = log ++ ext := by
      rintro t log' ⟨pre, rfl⟩
      obtain ⟨ext, hx⟩ := ih t (log ++ pre)
      exact ⟨pre ++ ext, by rw [hx, List.append_assoc]⟩
    simp only [dpllRecursive]
    split
    · exact ⟨[], by simp⟩
    · split
      · exact ⟨_, rfl⟩
      · split
        · exact ⟨_, rfl⟩
        · split
          · exact ⟨_, rfl⟩
          · split
            · split
              · exact ⟨_, rfl⟩
              · exact key _ _ ⟨_, rfl⟩
            · split
              · exact key _ _ ⟨_, rfl⟩
              · split
                · exact key _ _ ⟨_, rfl⟩
                · refine key _ _ ?_
                  obtain ⟨e1, h1⟩ := ih _ _
                  exact ⟨_, by rw [h1, List.append_assoc]⟩

/-- C6, amended. Pure-literal elimination is not restricted to decision level
0: `dpllRecursive` invokes it at every recursion node whose clauses are not
all flagged satisfied, whatever the current trail depth and decision count —
the ghost log always receives the node's (trail depth, decision count) pair
as its next entry. Together with `C6_counterexample_ple_inside_decision_subtree`
this shows invocations inside decision subtrees (depth 2, after 1 decision). -/
theorem C6_amended_ple_at_every_node (fuel : Nat) (s : OptState)
    (log : List (Nat × Nat))
    (h : (OptState.updateClauseStatus s).allFlagsSet = false) :
    ∃ rest, (dpllRecursive (fuel + 1) s log).2.2 =
      log ++ (s.undo_stack.length, s.decision_count) :: rest := by
  have key : ∀ (t : OptState) (log' : List (Nat × Nat)),
      (∃ pre, log' = log ++ (s.undo_stack.length, s.decision_count) :: pre) →
      ∃ rest, (dpllRecursive fuel t log').2.2 =
        log ++ (s.undo_stack.length, s.decision_count) :: rest := by
    rintro t log' ⟨pre, rfl⟩
    obtain ⟨ext, hx⟩ := dpllRecursive_log_extends fuel t _
    refine ⟨pre ++ ext, ?_⟩
    rw [hx, List.append_assoc, List.cons_append]
  simp only [dpllRecursive, h, Bool.false_eq_true, if_false]
  split
  · exact ⟨_, rfl⟩
  · split
    · exact ⟨_, rfl⟩
    · split
      · exact ⟨_, rfl⟩
      · split
        · split
          · exact ⟨_, rfl⟩
          · exact key _ _ ⟨_, rfl⟩
        · split
          · exact key _ _ ⟨_, rfl⟩
          · split
            · exact key _ _ ⟨_, rfl⟩
            · refine key _ _ ?_
              obtain ⟨e1, h1⟩ := dpllRecursive_log_extends fuel _ _
              refine ⟨e1, ?_⟩
              rw [h1, List.append_assoc, List.singleton_append]
              rfl

/-- C6, amended, witness: on `F6` the hypothesis holds at the initial solver
state (not all clauses satisfied), and the run's log indeed starts with the
entry of that node. -/
theorem C6_amended_ple_witness :
    (OptState.updateClauseStatus (OptState.init 4 F6)).allFlagsSet = false ∧
    ∃ rest, (dpllRecursive 6 (OptState.init 4 F6) []).2.2 =
      ((OptState.init 4 F6).undo_stack.length,
        (OptState.init 4 F6).decision_count) :: rest := by
  refine ⟨by decide, ?_⟩
  obtain ⟨rest, hr⟩ := C6_amended_ple_at_every_node 5 (OptState.init 4 F6) [] (by decide)
  exact ⟨rest, by simpa using hr⟩

/-- C8, counterexample. Claimed: `assign` on an already-assigned variable is
a fatal invariant break on which the implementation aborts loudly. Refuted on
the code: in the `FastDPLL` run on `F2`, state `F2s3` has variable 1 assigned
(True), and the very next operation the search performs is
`assign(1, VAR_FALSE, true)`, which silently overwrites the value and pushes
a second trail entry; execution continues normally (no check, no abort). -/
theorem C8_counterexample_assign_no_abort :
    F2s3.assignment.getD 1 VAR_UNASSIGNED = VAR_TRUE ∧
    F2s4.assignment.getD 1 VAR_UNASSIGNED = VAR_FALSE ∧
    F2s4.trail.length = F2s3.trail.length + 1 := by
  decide

/-- C8, amended: neither `FastCNF::assign` nor `OptimizedDPLL::pushAssignment`
checks any precondition; on an already-assigned variable both silently
overwrite the assignment, pushing one more trail/undo entry that records the
previous state, and return normally. -/
theorem C8_amended_assign_overwrites (s : FastCNF) (v : Nat) (val : VarState)
    (dec : Bool) (t : OptState) (w : Nat) (b : Bool)
    (hv : v < s.assignment.length)
    (hva : s.assignment.getD v VAR_UNASSIGNED ≠ VAR_UNASSIGNED)
    (hw : w < t.assignment.length)
    (hwa : t.is_assigned.getD w false = true) :
    (s.assign v val dec).assignment.getD v VAR_UNASSIGNED = val ∧
    (s.assign v val dec).trail =
      { var := v, old_value := s.assignment.getD v VAR_UNASSIGNED,
        decision_level := s.decision_level, is_decision := dec } :: s.trail ∧
    (t.pushAssignment w b).assignment.getD w false = b ∧
    (t.pushAssignment w b).undo_stack =
      { var := w, old_value := t.assignment.getD w false,
        was_assigned := t.is_assigned.getD w false } :: t.undo_stack := by
  refine ⟨?_, rfl, ?_, rfl⟩
  · simp [FastCNF.assign, List.getD_eq_getD_get?, List.getElem?_set_eq_of_lt _ hv]
  · simp [OptState.pushAssignment, List.getD_eq_getD_get?, List.getElem?_set_eq_of_lt _ hw]

/-- C8, amended, witness: instantiated at `F2s3` (variable 1 assigned True by
the failed positive branch) and at an `OptState` with variable 1 assigned. -/
theorem C8_amended_assign_witness :
    (1 < F2s3.assignment.length ∧
     F2s3.assignment.getD 1 VAR_UNASSIGNED ≠ VAR_UNASSIGNED ∧
     1 < ((OptState.init 1 [[1]]).pushAssignment 1 true).assignment.length ∧
     ((OptState.init 1 [[1]]).pushAssignment 1 true).is_assigned.getD 1 false = true) ∧
    ((F2s3.assign 1 VAR_FALSE true).assignment.getD 1 VAR_UNASSIGNED = VAR_FALSE ∧
     (F2s3.assign 1 VAR_FALSE true).trail =
       { var := 1, old_value := F2s3.assignment.getD 1 VAR_UNASSIGNED,
         decision_level := F2s3.decision_level, is_decision := true } :: F2s3.trail ∧
     (((OptState.init 1 [[1]]).pushAssignment 1 true).pushAssignment 1 false).assignment.getD
       1 false = false ∧
     (((OptState.init 1 [[1]]).pushAssignment 1 true).pushAssignment 1 false).undo_stack =
       { var := 1,
         old_value := ((OptState.init 1 [[1]]).pushAssignment 1 true).assignment.getD 1 false,
         was_assigned :=
           ((OptState.init 1 [[1]]).pushAssignment 1 true).is_assigned.getD 1 false } ::
         ((OptState.init 1 [[1]]).pushAssignment 1 true).undo_stack) :=
  ⟨⟨by decide, by decide, by decide, by decide⟩,
    C8_amended_assign_overwrites F2s3 1 VAR_FALSE true
      ((OptState.init 1 [[1]]).pushAssignment 1 true) 1 false
      (by decide) (by decide) (by decide) (by decide)⟩

/-- C10. When the optimized solver returns SAT, `DPLL_Optimized` exports
`value[i] = (solution[i] == 1) ? 1 : 0` over `getAssignment` (which yields -1
for unassigned variables), so every variable of `[1, num_vars]` left
unassigned by the search is exported as False (0), and every exported entry
is 0 or 1 — a total assignment. The same holds for the
`global_solution[i] == VAR_TRUE` export of `DPLL_DualCore_Fast`. -/
theorem C10_export_total_unassigned_false (s : OptState) (i : Nat)
    (h1 : 1 ≤ i) (h2 : i ≤ s.num_vars) :
    (s.is_assigned.getD i false = false → exportValue s.getAssignment i = 0) ∧
    (exportValue s.getAssignment i = 0 ∨ exportValue s.getAssignment i = 1) ∧
    (∀ sol : List VarState, sol.getD i VAR_UNASSIGNED = VAR_UNASSIGNED →
      exportValueFast sol i = 0) := by
  have hi : i < s.num_vars + 1 := by omega
  have hg : s.getAssignment.getD i 0 =
      (if i = 0 then -1
       else if s.is_assigned.getD i false then
         (if s.assignment.getD i false then 1 else 0)
       else -1) := by
    rw [OptState.getAssignment, List.getD_eq_getD_get?, List.get?_map,
      List.get?_range hi]
    rfl
  refine ⟨?_, ?_, ?_⟩
  · intro h
    rw [exportValue, hg, if_neg (show ¬ i = 0 by omega), if_neg (by rw [h]; simp)]
  · rw [exportValue]
    split
    · exact Or.inr rfl
    · exact Or.inl rfl
  · intro sol h
    rw [exportValueFast, if_neg (by rw [h]; decide)]

/-- C10, witness: the real `DPLL_Optimized` run on `[[1,-2],[2,3]]` stops
with variable 2 unassigned and exports it as 0 (False). -/
theorem C10_export_witness :
    (1 ≤ 2 ∧ 2 ≤ (DPLL_Optimized_run 3 [[1, -2], [2, 3]]).2.1.num_vars) ∧
    (((DPLL_Optimized_run 3 [[1, -2], [2, 3]]).2.1.is_assigned.getD 2 false = false →
        exportValue (DPLL_Optimized_run 3 [[1, -2], [2, 3]]).2.1.getAssignment 2 = 0) ∧
      (exportValue (DPLL_Optimized_run 3 [[1, -2], [2, 3]]).2.1.getAssignment 2 = 0 ∨
        exportValue (DPLL_Optimized_run 3 [[1, -2], [2, 3]]).2.1.getAssignment 2 = 1) ∧
      (∀ sol : List VarState, sol.getD 2 VAR_UNASSIGNED = VAR_UNASSIGNED →
        exportValueFast sol 2 = 0)) :=
  ⟨⟨by decide, by decide⟩,
    C10_export_total_unassigned_false (DPLL_Optimized_run 3 [[1, -2], [2, 3]]).2.1 2
      (by decide) (by decide)⟩
